import Mathlib

/-!
Verification of `switchbot_floor_lamp_rainy.py`: a shallow embedding of the
script's pure logic, with the HTTP layer modelled as explicit outcome values
(network results passed in as data) so that the script's control flow around
them can be stated and proved.
-/

namespace FloorLamp

/-! ## Weather helpers -/

/-- Embeds `_to_int_pct`: `int(re.sub(r"\D", "", s or "") or 0)`.
Strips every non-digit character and parses the remaining digit string as a
natural number; an empty remainder yields 0. -/
def to_int_pct (s : String) : Nat :=
  (s.data.filter Char.isDigit).foldl (fun acc c => acc * 10 + (c.toNat - Char.toNat (Char.ofNat 48))) 0

/-- The four `chanceOfRain` time-slot strings; `none` models a missing key
(`dict.get` returning its default). -/
structure ChanceOfRain where
  t00_06 : Option String
  t06_12 : Option String
  t12_18 : Option String
  t18_24 : Option String
deriving DecidableEq

/-- The value stored under the `min` or `max` key of the `temperature` dict:
either null / not a dict, or a dict whose `celsius` entry is a string or
absent/null. -/
inductive TempVal
  | nullish
  | obj (celsius : Option String)
deriving DecidableEq

/-- What `min_data.get("celsius") if isinstance(min_data, dict) else None`
yields for a stored temperature value. -/
def celsius_of : TempVal → Option String
  | .nullish => none
  | .obj c => c

/-- The `temperature` dict: each field is `none` when the key is missing. -/
structure Temperature where
  min : Option TempVal
  max : Option TempVal
deriving DecidableEq

/-- The `detail` dict (only its `weatherDetail` entry is consumed). -/
structure Detail where
  weatherDetail : Option String
deriving DecidableEq

/-- The `image` dict (only its `url` entry is consumed). -/
structure Image where
  url : Option String
deriving DecidableEq

/-- The `location` dict fields consumed by the embed builder. -/
structure Location where
  prefecture : Option String
  city : Option String
  district : Option String
  lat : Option String
  lon : Option String
deriving DecidableEq

/-- One entry of the provider's `forecasts` array; every field is `none` when
the corresponding key is missing (or, for sub-dicts, empty/null). -/
structure Forecast where
  chanceOfRain : Option ChanceOfRain
  telop : Option String
  temperature : Option Temperature
  detail : Option Detail
  image : Option Image
  publishingOffice : Option String
  linkUrl : Option String
deriving DecidableEq

/-- The provider's JSON payload; `location = none` models a missing key. -/
structure WeatherData where
  forecasts : List Forecast
  location : Option Location
deriving DecidableEq

/-- Outcome of the `requests.get` + `r.raise_for_status()` + `r.json()`
sequence in `get_today_rain_percent_max_all`; the three error constructors
are the exception paths caught by its `except` clause. -/
inductive FetchOutcome
  | netErr
  | httpErr
  | jsonErr
  | success (data : WeatherData)
deriving DecidableEq

/-- Embeds `get_today_rain_percent_max_all`. The two remaining exception
sources inside the `try` block — `data["forecasts"][0]` on an empty array and
`["chanceOfRain"]` on a missing key — are also caught and mapped to `(0, {})`;
on success the maximum of the three sanitized slots T06_12/T12_18/T18_24 is
returned together with the payload (T00_06 is not read here). -/
def get_today_rain_percent_max_all (o : FetchOutcome) : Int × Option WeatherData :=
  match o with
  | .netErr => (0, none)
  | .httpErr => (0, none)
  | .jsonErr => (0, none)
  | .success data =>
    match data.forecasts.head? with
    | none => (0, none)
    | some f0 =>
      match f0.chanceOfRain with
      | none => (0, none)
      | some rain =>
        let s1 := to_int_pct (rain.t06_12.getD "")
        let s2 := to_int_pct (rain.t12_18.getD "")
        let s3 := to_int_pct (rain.t18_24.getD "")
        ((max s1 (max s2 s3) : Nat), some data)

/-! ## SwitchBot command client -/

/-- The JSON body of a SwitchBot response; `statusCode = none` models a
payload without a `statusCode` key (`payload.get` returning `None`). -/
structure Payload where
  statusCode : Option Int
deriving DecidableEq

/-- Outcome of one `requests.post` to the SwitchBot API: a network-level
`RequestException`, or an HTTP response with a status code and a parsed JSON
body (`none` when `r.json()` fails to decode). -/
inductive HttpResult
  | reqErr
  | resp (status : Nat) (body : Option Payload)
deriving DecidableEq

/-- Embeds `post_command`'s handling of one HTTP outcome. First component is
the returned value (`None` on a caught `RequestException`, which includes the
`raise_for_status` error for statuses ≥ 400 and JSON-decode failures); second
component records whether an error was logged. A payload whose `statusCode`
is not 100 is logged as an error but still returned. -/
def post_command (res : HttpResult) : Option Payload × Bool :=
  match res with
  | .reqErr => (none, true)
  | .resp status body =>
    if 400 ≤ status then (none, true)
    else
      match body with
      | none => (none, true)
      | some payload =>
        if payload.statusCode = some 100 then (some payload, false)
        else (some payload, true)

/-- One issued device command: the arguments of a `post_command` call. -/
structure CmdCall where
  device_id : String
  command : String
  parameter : String
  command_type : String
deriving DecidableEq

/-- State threaded through a sequence of `post_command` calls: the pending
HTTP outcomes still to be consumed, and the log of commands issued so far. -/
structure PostState where
  env : List HttpResult
  log : List CmdCall
deriving DecidableEq

/-- One `post_command` call in sequence: records the issued command and
consumes the next pending HTTP outcome (an exhausted environment behaves as a
network error). The call never raises, whatever the outcome. -/
def post_command_st (device_id command parameter command_type : String)
    (st : PostState) : PostState × (Option Payload × Bool) :=
  match st.env with
  | [] => (⟨[], st.log ++ [⟨device_id, command, parameter, command_type⟩]⟩, (none, true))
  | r :: rest => (⟨rest, st.log ++ [⟨device_id, command, parameter, command_type⟩]⟩, post_command r)

/-! ## Floor-lamp operations -/

/-- Embeds `clamp_brightness`; `none` models an argument `int()` cannot
convert, which defaults to 100 before clamping to [1, 100]. -/
def clamp_brightness (brightness : Option Int) : Int :=
  max 1 (min 100 (brightness.getD 100))

/-- Embeds `set_lamp_rgb`: clamps the channels and brightness, then issues
setBrightness, setColor, turnOn in order, ignoring each call's result. -/
def set_lamp_rgb (device_id : String) (color : Int × Int × Int)
    (brightness : Option Int) (st : PostState) : PostState :=
  let r := max 0 (min 255 color.1)
  let g := max 0 (min 255 color.2.1)
  let b := max 0 (min 255 color.2.2)
  let bri := clamp_brightness brightness
  let st1 := (post_command_st device_id "setBrightness" (toString bri) "command" st).1
  let st2 := (post_command_st device_id "setColor" s!"{r}:{g}:{b}" "command" st1).1
  (post_command_st device_id "turnOn" "default" "command" st2).1

/-- Embeds `set_lamp_ct`: clamps the color temperature to [2700, 6500] and the
brightness, then issues setBrightness, setColorTemperature, turnOn in order,
ignoring each call's result. -/
def set_lamp_ct (device_id : String) (color_temperature : Int)
    (brightness : Option Int) (st : PostState) : PostState :=
  let ct := max 2700 (min 6500 color_temperature)
  let bri := clamp_brightness brightness
  let st1 := (post_command_st device_id "setBrightness" (toString bri) "command" st).1
  let st2 := (post_command_st device_id "setColorTemperature" (toString ct) "command" st1).1
  (post_command_st device_id "turnOn" "default" "command" st2).1

/-! ## Rain-to-color mappings -/

/-- Embeds `map_rain_to_rgb`: the six-bucket step function. -/
def map_rain_to_rgb (rain : Int) : Int × Int × Int :=
  if rain = 0 then (255, 127, 0)
  else if rain ≤ 20 then (255, 255, 0)
  else if rain ≤ 40 then (127, 255, 0)
  else if rain ≤ 60 then (0, 255, 255)
  else if rain ≤ 80 then (0, 127, 255)
  else (0, 0, 255)

/-- Embeds `map_rain_to_ct`. The Python source computes
`int(ct_min + (ct_max - ct_min) * (rain / 100.0))` in double-precision
floating point; for every integer `rain` the clamped value makes the product
land exactly on the integer `38 * rain`, so truncating integer division
reproduces the float result on the whole domain (checked exhaustively against
CPython for the clamped range). -/
def map_rain_to_ct (rain : Int) : Int :=
  let r := max 0 (min 100 rain)
  2700 + (6500 - 2700) * r / 100

/-! ## Discord helpers -/

/-- Embeds `rgb_to_decimal`: `(r << 16) + (g << 8) + b`. -/
def rgb_to_decimal (rgb : Int × Int × Int) : Int :=
  rgb.1 * 65536 + rgb.2.1 * 256 + rgb.2.2

/-- Whether `s.strip()` is truthy, i.e. the string has a non-whitespace
character (the stripped value itself is never used by the source, only its
truthiness). -/
def has_ink (s : String) : Bool :=
  s.data.any (fun c => !c.isWhitespace)

/-- The filter `v if v and v.strip() else None` applied to a nullable celsius
string: keeps the string only when it is non-null and not whitespace-only. -/
def keep_nonblank (oc : Option String) : Option String :=
  match oc with
  | none => none
  | some s => if has_ink s then some s else none

/-- Embeds `format_temperature`. `none` models a falsy (empty) `temperature`
dict; a dict missing either the `min` or the `max` key short-circuits to
`"--"` exactly as `"min" not in temp or "max" not in temp` does. -/
def format_temperature (temp : Option Temperature) : String :=
  match temp with
  | none => "--"
  | some t =>
    match t.min, t.max with
    | some mv, some xv =>
      match keep_nonblank (celsius_of mv), keep_nonblank (celsius_of xv) with
      | some m, some x => s!"{m}C / {x}C"
      | none, some x => s!"Max {x}C"
      | some m, none => s!"Min {m}C"
      | none, none => "--"
    | _, _ => "--"

/-- The `lamp_setting` dict built by `main`: `max_rain` is always set, and
exactly one of `rgb` / `ct` is populated depending on the mode flag. -/
structure LampSetting where
  max_rain : Int
  rgb : Option (Int × Int × Int)
  ct : Option Int
deriving DecidableEq

/-- One entry of the embed's `fields` array. -/
structure EmbedField where
  name : String
  value : String
  inline : Bool
deriving DecidableEq

/-- The Discord embed object assembled by `build_discord_embed`;
`thumbnail = none` models the `{}` placeholder used when no icon URL exists. -/
structure Embed where
  title : String
  url : String
  description : String
  color : Int
  fields : List EmbedField
  thumbnail : Option String
  footer : String
deriving DecidableEq

/-- Embeds `build_discord_embed`. `use_ct` models the module-global
`USE_COLOR_TEMPERATURE` flag; `weather_data = none` models a falsy (empty)
payload, for which the function returns `{}` (here `none`). -/
def build_discord_embed (use_ct : Bool) (weather_data : Option WeatherData)
    (lamp_setting : LampSetting) : Option Embed :=
  match weather_data with
  | none => none
  | some wd =>
    let forecast := wd.forecasts.headD ⟨none, none, none, none, none, none, none⟩
    let location := wd.location
    let publishing_office := forecast.publishingOffice.getD ""
    let district := (location.bind Location.district).getD ""
    let area := if district = "" then (location.bind Location.city).getD "" else district
    let pref := (location.bind Location.prefecture).getD ""
    let city := (location.bind Location.city).getD ""
    let title := s!"🌤️ Today\x27s Weather - {pref} {city}"
    let jma_url := forecast.linkUrl.getD ""
    let lat := (location.bind Location.lat).getD ""
    let lon := (location.bind Location.lon).getD ""
    let url := if jma_url = "" then
        s!"https://www.jma.go.jp/bosai/map.html#contents=forecast_map&lat={lat}&lon={lon}&zoom=8"
      else jma_url
    let color := rgb_to_decimal (lamp_setting.rgb.getD (255, 127, 0))
    let t06_12 := (forecast.chanceOfRain.bind ChanceOfRain.t06_12).getD "--"
    let t12_18 := (forecast.chanceOfRain.bind ChanceOfRain.t12_18).getD "--"
    let t18_24 := (forecast.chanceOfRain.bind ChanceOfRain.t18_24).getD "--"
    let max_rain := lamp_setting.max_rain
    let telop := forecast.telop.getD ""
    let icon_url := (forecast.image.bind Image.url).getD ""
    let temp_str := format_temperature forecast.temperature
    let desc := if area = "" then telop else s!"{telop} - {area}"
    let base_fields : List EmbedField :=
      [⟨"Precipitation (Max)", s!"{max_rain}%", true⟩,
       ⟨"06-12", if t06_12 = "" then "--%" else t06_12, true⟩,
       ⟨"12-18", if t12_18 = "" then "--%" else t12_18, true⟩,
       ⟨"18-24", if t18_24 = "" then "--%" else t18_24, true⟩,
       ⟨"Temperature", temp_str, true⟩]
    let lamp_field : EmbedField :=
      if use_ct then
        ⟨"Lamp Setting", s!"Color Temp: {lamp_setting.ct.getD 0}K", true⟩
      else
        let r := (lamp_setting.rgb.getD (0, 0, 0)).1
        let g := (lamp_setting.rgb.getD (0, 0, 0)).2.1
        let b := (lamp_setting.rgb.getD (0, 0, 0)).2.2
        ⟨"Lamp Setting", s!"RGB({r},{g},{b})", true⟩
    let fields1 := base_fields ++ [lamp_field]
    let fields2 :=
      match forecast.detail with
      | none => fields1
      | some dt =>
        let w := dt.weatherDetail.getD ""
        if w = "" then fields1 else fields1 ++ [⟨"Details", w, false⟩]
    some ⟨title, url, desc, color, fields2,
          if icon_url = "" then none else some icon_url,
          s!"{publishing_office} / Tsukumijima Weather API"⟩

/-- The Discord configuration globals read at startup. -/
structure DiscordConfig where
  enabled : Bool
  webhook_url : String
deriving DecidableEq

/-- Outcome of the `requests.post` to the webhook: success, or a
`RequestException` (network error, timeout, or `raise_for_status` on a
non-2xx response). -/
inductive WebhookResult
  | ok
  | reqErr
deriving DecidableEq

/-- Embeds `send_discord_notification`. Returns the boolean result paired
with the number of network POSTs performed, so that "no network call" is
visible in the model. -/
def send_discord_notification (cfg : DiscordConfig) (use_ct : Bool)
    (weather_data : Option WeatherData) (lamp_setting : LampSetting)
    (net : WebhookResult) : Bool × Nat :=
  if !cfg.enabled then (true, 0)
  else if cfg.webhook_url = "" then (false, 0)
  else
    match build_discord_embed use_ct weather_data lamp_setting with
    | none => (false, 0)
    | some _ =>
      match net with
      | .ok => (true, 1)
      | .reqErr => (false, 1)

/-! ## Orchestrator -/

/-- The `lamp_setting` dict as `main` populates it: in color-temperature mode
only `ct` is set, otherwise only `rgb`. -/
def main_lamp_setting (use_ct : Bool) (rain : Int) : LampSetting :=
  if use_ct then ⟨rain, none, some (map_rain_to_ct rain)⟩
  else ⟨rain, some (map_rain_to_rgb rain), none⟩

/-! ## Theorems -/

/-- C1, counterexample: on a 2xx response whose application `statusCode` is
190, `post_command` returns the payload itself — not the empty/null failure
indicator the claim asserts for a non-success application status. -/
theorem C1_counterexample :
    (post_command (.resp 200 (some ⟨some 190⟩))).1 = some ⟨some 190⟩ ∧
    (post_command (.resp 200 (some ⟨some 190⟩))).1 ≠ none ∧
    (post_command (.resp 200 (some ⟨some 190⟩))).2 = true := by
  decide

/-- C1 (amended): `post_command` never raises; a network-level error, an HTTP
error status (≥ 400, surfaced by `raise_for_status`) or a JSON-decode failure
is caught, logged and converted to a `None` return, while a response that
parses is returned to the caller even when its application `statusCode` is not
100 — that case is only logged as an error. -/
theorem C1_post_command_failure_handling (status : Nat) (body : Option Payload) (p : Payload) :
    post_command .reqErr = (none, true) ∧
    (400 ≤ status → post_command (.resp status body) = (none, true)) ∧
    (status < 400 → post_command (.resp status none) = (none, true)) ∧
    (status < 400 → p.statusCode ≠ some 100 →
      post_command (.resp status (some p)) = (some p, true)) ∧
    (status < 400 → p.statusCode = some 100 →
      post_command (.resp status (some p)) = (some p, false)) := by
  refine ⟨rfl, ?_, ?_, ?_, ?_⟩
  · intro h
    simp [post_command, h]
  · intro h
    simp [post_command, Nat.not_le.mpr h]
  · intro h hp
    simp [post_command, Nat.not_le.mpr h, hp]
  · intro h hp
    simp [post_command, Nat.not_le.mpr h, hp]

/-- C1, witness: the amended theorem applied at a 200 response with
`statusCode` 100. -/
theorem C1_witness :
    post_command (.resp 200 (some ⟨some 100⟩)) = (some ⟨some 100⟩, false) :=
  (C1_post_command_failure_handling 200 none ⟨some 100⟩).2.2.2.2 (by decide) rfl

/-- C2, counterexample: `map_rain_to_ct 70` is 5360, not the 5260 the claim
asserts (the claim's own interpolation formula yields 2700 + 38 * 70 = 5360). -/
theorem C2_counterexample :
    map_rain_to_ct 70 ≠ 5260 ∧ map_rain_to_ct 70 = 5360 := by
  decide

/-- C2 (amended): for every integer level, `map_rain_to_ct` clamps the level
to [0, 100] and returns `2700 + (6500 - 2700) * level / 100` truncated to an
integer, which is exactly `2700 + 38 * level` on the clamped value; in
particular 0 ↦ 2700, 50 ↦ 4600, 70 ↦ 5360 and 100 ↦ 6500. -/
theorem C2_map_rain_to_ct_formula (n : Int) :
    map_rain_to_ct n = 2700 + 38 * (max 0 (min 100 n)) ∧
    map_rain_to_ct 0 = 2700 ∧ map_rain_to_ct 50 = 4600 ∧
    map_rain_to_ct 70 = 5360 ∧ map_rain_to_ct 100 = 6500 := by
  refine ⟨?_, by decide, by decide, by decide, by decide⟩
  simp only [map_rain_to_ct]
  omega

/-- C3: on a successful fetch, the first component returned by
`get_today_rain_percent_max_all` is the maximum of the sanitized values of
exactly the slots T06_12, T12_18 and T18_24 (T00_06 does not appear), and the
sanitizer maps `""` to 0 and `"40%"` to 40. -/
theorem C3_fetch_max_of_three_slots (d : WeatherData) (f0 : Forecast) (rain : ChanceOfRain)
    (h1 : d.forecasts.head? = some f0) (h2 : f0.chanceOfRain = some rain) :
    (get_today_rain_percent_max_all (.success d)).1 =
      ((max (to_int_pct (rain.t06_12.getD ""))
        (max (to_int_pct (rain.t12_18.getD "")) (to_int_pct (rain.t18_24.getD ""))) : Nat) : Int) ∧
    to_int_pct "" = 0 ∧ to_int_pct "40%" = 40 := by
  refine ⟨?_, by decide, by decide⟩
  simp [get_today_rain_percent_max_all, h1, h2]

/-- C3, witness: the spec's end-to-end scenario — slot strings 10%/20%/70%/5%
reduce to level 70. -/
theorem C3_witness :
    (get_today_rain_percent_max_all (.success
      ⟨[⟨some ⟨some "10%", some "20%", some "70%", some "5%"⟩,
        none, none, none, none, none, none⟩], none⟩)).1 = 70 := by
  have h := C3_fetch_max_of_three_slots
    ⟨[⟨some ⟨some "10%", some "20%", some "70%", some "5%"⟩,
      none, none, none, none, none, none⟩], none⟩
    ⟨some ⟨some "10%", some "20%", some "70%", some "5%"⟩,
      none, none, none, none, none, none⟩
    ⟨some "10%", some "20%", some "70%", some "5%"⟩ rfl rfl
  exact h.1.trans (by decide)

/-- C4: `map_rain_to_rgb` is a total step function on integer levels with the
six buckets of the claim, and a boundary value belongs to the lower bucket:
20 ↦ yellow, 21 ↦ lime. -/
theorem C4_map_rain_to_rgb_buckets (n : Int) :
    (n = 0 → map_rain_to_rgb n = (255, 127, 0)) ∧
    (0 < n → n ≤ 20 → map_rain_to_rgb n = (255, 255, 0)) ∧
    (20 < n → n ≤ 40 → map_rain_to_rgb n = (127, 255, 0)) ∧
    (40 < n → n ≤ 60 → map_rain_to_rgb n = (0, 255, 255)) ∧
    (60 < n → n ≤ 80 → map_rain_to_rgb n = (0, 127, 255)) ∧
    (80 < n → n ≤ 100 → map_rain_to_rgb n = (0, 0, 255)) ∧
    map_rain_to_rgb 20 = (255, 255, 0) ∧ map_rain_to_rgb 21 = (127, 255, 0) := by
  refine ⟨?_, ?_, ?_, ?_, ?_, ?_, by decide, by decide⟩ <;>
    (first
      | (intro h
         unfold map_rain_to_rgb
         split_ifs <;> first | rfl | (exfalso; omega))
      | (intro h1 h2
         unfold map_rain_to_rgb
         split_ifs <;> first | rfl | (exfalso; omega)))

/-- C4, witness: the bucket theorem applied at level 50. -/
theorem C4_witness :
    ((40 : Int) < 50 ∧ (50 : Int) ≤ 60) ∧ map_rain_to_rgb 50 = (0, 255, 255) :=
  ⟨by decide, (C4_map_rain_to_rgb_buckets 50).2.2.2.1 (by decide) (by decide)⟩

/-- C5: `set_lamp_rgb` issues exactly setBrightness, setColor, turnOn in that
order with clamped parameters, and `set_lamp_ct` issues setBrightness,
setColorTemperature, turnOn — for every environment of per-command outcomes,
so no command failure ever suppresses a later command; the clamps land in
[1, 100] (brightness, with `none` defaulting to 100), [0, 255] (channels) and
[2700, 6500] (color temperature). -/
theorem C5_lamp_command_sequences (env : List HttpResult) (d : String)
    (color : Int × Int × Int) (obri : Option Int) (kelvin : Int) :
    (set_lamp_rgb d color obri ⟨env, []⟩).log =
      [⟨d, "setBrightness", toString (clamp_brightness obri), "command"⟩,
       ⟨d, "setColor",
         s!"{max 0 (min 255 color.1)}:{max 0 (min 255 color.2.1)}:{max 0 (min 255 color.2.2)}",
         "command"⟩,
       ⟨d, "turnOn", "default", "command"⟩] ∧
    (set_lamp_ct d kelvin obri ⟨env, []⟩).log =
      [⟨d, "setBrightness", toString (clamp_brightness obri), "command"⟩,
       ⟨d, "setColorTemperature", toString (max 2700 (min 6500 kelvin)), "command"⟩,
       ⟨d, "turnOn", "default", "command"⟩] ∧
    1 ≤ clamp_brightness obri ∧ clamp_brightness obri ≤ 100 ∧
    clamp_brightness none = 100 ∧
    0 ≤ max 0 (min 255 color.1) ∧ max 0 (min 255 color.1) ≤ 255 ∧
    0 ≤ max 0 (min 255 color.2.1) ∧ max 0 (min 255 color.2.1) ≤ 255 ∧
    0 ≤ max 0 (min 255 color.2.2) ∧ max 0 (min 255 color.2.2) ≤ 255 ∧
    2700 ≤ max 2700 (min 6500 kelvin) ∧ max 2700 (min 6500 kelvin) ≤ 6500 := by
  refine ⟨?_, ?_, ?_, ?_, by decide, ?_, ?_, ?_, ?_, ?_, ?_, ?_, ?_⟩
  · rcases env with _ | ⟨a, _ | ⟨b, _ | ⟨c, rest⟩⟩⟩ <;> rfl
  · rcases env with _ | ⟨a, _ | ⟨b, _ | ⟨c, rest⟩⟩⟩ <;> rfl
  all_goals (try simp only [clamp_brightness])
  all_goals omega

/-- C6: every failure of the forecast fetch — network error, non-2xx status,
JSON-parse failure, or missing expected keys (empty `forecasts` array, or a
today entry without `chanceOfRain`) — yields `(0, none)`; the embedding is a
total function, so no exception escapes. -/
theorem C6_fetch_failure_absorbed (d : WeatherData) :
    get_today_rain_percent_max_all .netErr = (0, none) ∧
    get_today_rain_percent_max_all .httpErr = (0, none) ∧
    get_today_rain_percent_max_all .jsonErr = (0, none) ∧
    (d.forecasts = [] → get_today_rain_percent_max_all (.success d) = (0, none)) ∧
    (∀ f0, d.forecasts.head? = some f0 → f0.chanceOfRain = none →
      get_today_rain_percent_max_all (.success d) = (0, none)) := by
  refine ⟨rfl, rfl, rfl, ?_, ?_⟩
  · intro hd
    simp [get_today_rain_percent_max_all, hd]
  · intro f0 h1 h2
    simp [get_today_rain_percent_max_all, h1, h2]

/-- C6, witness: the failure theorem applied to a network error, an empty
payload, and a payload whose today entry lacks `chanceOfRain`. -/
theorem C6_witness :
    get_today_rain_percent_max_all .netErr = (0, none) ∧
    get_today_rain_percent_max_all (.success ⟨[], none⟩) = (0, none) ∧
    get_today_rain_percent_max_all (.success
      ⟨[⟨none, none, none, none, none, none, none⟩], none⟩) = (0, none) :=
  ⟨(C6_fetch_failure_absorbed ⟨[], none⟩).1,
   (C6_fetch_failure_absorbed ⟨[], none⟩).2.2.2.1 rfl,
   (C6_fetch_failure_absorbed
     ⟨[⟨none, none, none, none, none, none, none⟩], none⟩).2.2.2.2 _ rfl rfl⟩

/-- C7: `send_discord_notification` returns success with no network call when
disabled; failure with no network call when the webhook URL is unset or the
weather payload (and hence the embed) is empty; and otherwise one POST is
made, whose network error or non-2xx outcome becomes a `false` return — the
embedding is total, so nothing is raised to the caller. -/
theorem C7_notification_policy (cfg : DiscordConfig) (use_ct : Bool)
    (wd : Option WeatherData) (ls : LampSetting) (net : WebhookResult) :
    (cfg.enabled = false → send_discord_notification cfg use_ct wd ls net = (true, 0)) ∧
    (cfg.enabled = true → cfg.webhook_url = "" →
      send_discord_notification cfg use_ct wd ls net = (false, 0)) ∧
    (cfg.enabled = true → cfg.webhook_url ≠ "" → wd = none →
      send_discord_notification cfg use_ct wd ls net = (false, 0)) ∧
    (cfg.enabled = true → cfg.webhook_url ≠ "" → ∀ w, wd = some w →
      send_discord_notification cfg use_ct wd ls .reqErr = (false, 1)) ∧
    (cfg.enabled = true → cfg.webhook_url ≠ "" → ∀ w, wd = some w →
      send_discord_notification cfg use_ct wd ls .ok = (true, 1)) := by
  refine ⟨?_, ?_, ?_, ?_, ?_⟩
  · intro h
    simp [send_discord_notification, h]
  · intro h h2
    simp [send_discord_notification, h, h2]
  · intro h h2 hw
    subst hw
    simp [send_discord_notification, h, h2, build_discord_embed]
  · intro h h2 w hw
    subst hw
    simp [send_discord_notification, h, h2, build_discord_embed]
  · intro h h2 w hw
    subst hw
    simp [send_discord_notification, h, h2, build_discord_embed]

/-- C7, witness: the policy theorem applied with notifications disabled, with
an unset webhook URL, and with an empty weather payload. -/
theorem C7_witness :
    send_discord_notification ⟨false, "u"⟩ true none ⟨0, none, none⟩ .ok = (true, 0) ∧
    send_discord_notification ⟨true, ""⟩ true none ⟨0, none, none⟩ .ok = (false, 0) ∧
    send_discord_notification ⟨true, "u"⟩ true none ⟨0, none, none⟩ .ok = (false, 0) :=
  ⟨(C7_notification_policy ⟨false, "u"⟩ true none ⟨0, none, none⟩ .ok).1 rfl,
   (C7_notification_policy ⟨true, ""⟩ true none ⟨0, none, none⟩ .ok).2.1 rfl rfl,
   (C7_notification_policy ⟨true, "u"⟩ true none ⟨0, none, none⟩ .ok).2.2.1 rfl
     (by decide) rfl⟩

/-- C8: `format_temperature` renders "{min}C / {max}C" when both celsius
values are present, "Max {max}C" / "Min {min}C" when only one is, and "--"
when neither is, where a null or empty-string celsius counts as absent; the
hypotheses restrict to strings that are not whitespace-only, where the
claim's emptiness test and the code's `strip()` test agree. -/
theorem C8_format_temperature_cases (mv xv : TempVal)
    (hm : ∀ s, celsius_of mv = some s → s ≠ "" → has_ink s = true)
    (hx : ∀ s, celsius_of xv = some s → s ≠ "" → has_ink s = true) :
    (∀ m x, celsius_of mv = some m → m ≠ "" → celsius_of xv = some x → x ≠ "" →
      format_temperature (some ⟨some mv, some xv⟩) = s!"{m}C / {x}C") ∧
    ((celsius_of mv = none ∨ celsius_of mv = some "") →
      ∀ x, celsius_of xv = some x → x ≠ "" →
        format_temperature (some ⟨some mv, some xv⟩) = s!"Max {x}C") ∧
    ((celsius_of xv = none ∨ celsius_of xv = some "") →
      ∀ m, celsius_of mv = some m → m ≠ "" →
        format_temperature (some ⟨some mv, some xv⟩) = s!"Min {m}C") ∧
    ((celsius_of mv = none ∨ celsius_of mv = some "") →
      (celsius_of xv = none ∨ celsius_of xv = some "") →
        format_temperature (some ⟨some mv, some xv⟩) = "--") ∧
    format_temperature none = "--" := by
  have h0 : has_ink "" = false := by decide
  refine ⟨?_, ?_, ?_, ?_, rfl⟩
  · intro m x h1 h2 h3 h4
    simp [format_temperature, keep_nonblank, h1, h3, hm m h1 h2, hx x h3 h4]
  · intro hmv x h3 h4
    rcases hmv with h1 | h1 <;>
      simp [format_temperature, keep_nonblank, h0, h1, h3, hx x h3 h4]
  · intro hxv m h1 h2
    rcases hxv with h3 | h3 <;>
      simp [format_temperature, keep_nonblank, h0, h1, h3, hm m h1 h2]
  · intro hmv hxv
    rcases hmv with h1 | h1 <;> rcases hxv with h3 | h3 <;>
      simp [format_temperature, keep_nonblank, h0, h1, h3]

/-- C8, witness: the spec's three formatting examples. -/
theorem C8_witness :
    format_temperature (some ⟨some (.obj (some "9")), some (.obj (some "15"))⟩) = "9C / 15C" ∧
    format_temperature (some ⟨some (.obj (some "")), some (.obj (some "15"))⟩) = "Max 15C" ∧
    format_temperature none = "--" := by
  have h9 : ∀ s, celsius_of (.obj (some "9")) = some s → s ≠ "" → has_ink s = true := by
    intro s h hn
    cases h
    decide
  have h15 : ∀ s, celsius_of (.obj (some "15")) = some s → s ≠ "" → has_ink s = true := by
    intro s h hn
    cases h
    decide
  have hE : ∀ s, celsius_of (.obj (some "")) = some s → s ≠ "" → has_ink s = true := by
    intro s h hn
    cases h
    exact absurd rfl hn
  refine ⟨?_, ?_, ?_⟩
  · exact (C8_format_temperature_cases _ _ h9 h15).1 "9" "15" rfl (by decide) rfl (by decide)
  · exact (C8_format_temperature_cases _ _ hE h15).2.1 (Or.inr rfl) "15" rfl (by decide)
  · exact (C8_format_temperature_cases (.obj (some "")) (.obj (some "15")) hE h15).2.2.2.2

/-- C9: `map_rain_to_ct` is monotonically non-decreasing on all integers. -/
theorem C9_map_rain_to_ct_monotone (a b : Int) (h : a ≤ b) :
    map_rain_to_ct a ≤ map_rain_to_ct b := by
  simp only [map_rain_to_ct]
  omega

/-- C9, witness: monotonicity applied at 10 ≤ 20. -/
theorem C9_witness : map_rain_to_ct 10 ≤ map_rain_to_ct 20 :=
  C9_map_rain_to_ct_monotone 10 20 (by decide)

/-- C10: in color-temperature mode `main` never populates the `rgb` field of
the lamp setting, the embed builder falls back to (255, 127, 0), and so for
every rain level and weather payload the embed's color is 16744192. -/
theorem C10_ct_mode_embed_color (wd : WeatherData) (rain : Int) :
    (build_discord_embed true (some wd) (main_lamp_setting true rain)).map Embed.color =
      some 16744192 ∧
    (main_lamp_setting true rain).rgb = none ∧
    rgb_to_decimal (255, 127, 0) = 16744192 := by
  refine ⟨?_, by simp [main_lamp_setting], by decide⟩
  simp [build_discord_embed, main_lamp_setting, rgb_to_decimal]

end FloorLamp
